import Mathlib

/-!
Shallow embedding of deploy-kit (src/src/main.py), a small deployment
helper: it loads a JSON configuration with defaults, runs a deployment
shell script, restarts configured services, copies the deployment
directory for backups, and dispatches these four actions from a CLI.
External effects (the file system, child processes, the clock) are
passed in explicitly as parameters, and each action returns the
dictionary the Python code builds, together with a trace of the
processes it spawned.
-/

namespace DeployKit

/-- A scalar value stored in the result dictionaries built by main.py;
those dictionaries only ever hold booleans, strings and integers. -/
inductive PyVal where
  | bool : Bool → PyVal
  | str : String → PyVal
  | int : Int → PyVal
  deriving DecidableEq

/-- A Python dictionary with string keys, in insertion order. -/
abbrev PyDict := List (String × PyVal)

/-- The configuration mapping: each recognized key may be present or
absent, mirroring the dict.get lookups in the source. -/
structure Config where
  environment : Option String
  logLevel : Option String
  deploymentPath : Option String
  backupEnabled : Option Bool
  services : Option (List String)
  deriving DecidableEq

/-- get_default_config, main.py lines 58-71. -/
def get_default_config : Config :=
  { environment := some "development",
    logLevel := some "INFO",
    deploymentPath := some "/var/www/html",
    backupEnabled := some true,
    services := some ([] : List String) }

/-- The observable state of the configuration file seen by load_config:
absent, present but failing to open or parse (the except branch of
lines 54-56), or successfully parsed into a configuration. -/
inductive ConfigFile where
  | missing : ConfigFile
  | unreadable : String → ConfigFile
  | parsed : Config → ConfigFile
  deriving DecidableEq

/-- load_config, main.py lines 40-56: a readable, parseable file is
returned as parsed; a missing file and any exception both fall back to
get_default_config. -/
def load_config : ConfigFile → Config
  | ConfigFile.missing => get_default_config
  | ConfigFile.unreadable _ => get_default_config
  | ConfigFile.parsed cfg => cfg

/-- The script path computed at main.py line 86: the scripts directory
of the source tree joined with the script name plus the .sh suffix. -/
def script_path (script_name : String) : String :=
  "scripts/" ++ script_name ++ ".sh"

/-- Outcome of the child process launched by subprocess.run at main.py
line 94: either the process ran to completion with an exit status and
captured stdout and stderr, or the launch itself raised with a message
(for example, a missing interpreter). -/
inductive RunOutcome where
  | completed : Int → String → String → RunOutcome
  | raised : String → RunOutcome
  deriving DecidableEq

/-- execute_deployment, main.py lines 73-122. A missing script raises
FileNotFoundError (line 89), caught by the generic except at line 117.
The subprocess runs with check set, so a non-zero exit status raises
CalledProcessError, caught at line 110; exit status zero returns the
success dictionary of lines 104-108; any other exception is caught at
line 117 and its message returned. -/
def execute_deployment (script_name : String) (scriptExists : Bool)
    (run : RunOutcome) : PyDict :=
  if scriptExists = false then
    [("success", PyVal.bool false),
     ("error", PyVal.str ("Deployment script not found: " ++ script_path script_name))]
  else
    match run with
    | RunOutcome.completed returncode stdout stderr =>
        if returncode = 0 then
          [("success", PyVal.bool true),
           ("output", PyVal.str stdout),
           ("stderr", PyVal.str stderr)]
        else
          [("success", PyVal.bool false),
           ("error", PyVal.str stderr),
           ("exit_code", PyVal.int returncode)]
    | RunOutcome.raised msg =>
        [("success", PyVal.bool false),
         ("error", PyVal.str msg)]

/-- A Python exception raised by one restart attempt inside the loop of
restart_services: either CalledProcessError from a non-zero systemctl
exit, or any other exception from the launch. -/
inductive PyExc where
  | calledProcessError : String → PyExc
  | exception : String → PyExc
  deriving DecidableEq

/-- Whether an exception raised in the loop body of restart_services is
caught by one of its two except clauses (main.py lines 157-160): the
first catches CalledProcessError, the second catches every Exception. -/
def caught_by_restart_handlers : PyExc → Bool
  | PyExc.calledProcessError _ => true
  | PyExc.exception _ => true

/-- The trace of one restart_services call: the services for which a
systemctl restart was spawned, in order; an exception escaping the loop
(if any); and the Python return value of the function. -/
structure RestartRun where
  attempted : List String
  uncaught : Option PyExc
  returned : Option PyDict
  deriving DecidableEq

/-- The for-loop of restart_services, main.py lines 147-160: each
iteration attempts one restart inside try; a raised exception is
matched against the two except clauses; a caught exception is logged
and the loop continues, while an uncaught one would abort the loop and
propagate. -/
def restart_loop (outcome : String → Except PyExc Unit) :
    List String → List String × Option PyExc
  | [] => ([], none)
  | s :: rest =>
      match outcome s with
      | Except.ok _ =>
          let r := restart_loop outcome rest
          (s :: r.1, r.2)
      | Except.error e =>
          if caught_by_restart_handlers e then
            let r := restart_loop outcome rest
            (s :: r.1, r.2)
          else
            ([s], some e)

/-- restart_services, main.py lines 138-160: reads the configured
services, returns early when the list is empty, and otherwise runs the
loop. The Python function is annotated -> None and returns no value on
any path, which the returned field records. -/
def restart_services (cfg : Config) (outcome : String → Except PyExc Unit) :
    RestartRun :=
  let services := cfg.services.getD []
  if services.isEmpty then
    { attempted := [], uncaught := none, returned := none }
  else
    let r := restart_loop outcome services
    { attempted := r.1, uncaught := r.2, returned := none }

/-- A calendar time with second precision, as produced by
datetime.now(). -/
structure DateTime where
  year : Nat
  month : Nat
  day : Nat
  hour : Nat
  minute : Nat
  second : Nat
  deriving DecidableEq

/-- Zero-padding to two digits, as the strftime fields of months, days,
hours, minutes and seconds do. -/
def pad2 (n : Nat) : String :=
  if n < 10 then "0" ++ toString n else toString n

/-- Zero-padding of the year to four digits, as strftime %Y does. -/
def pad4 (n : Nat) : String :=
  if n < 10 then "000" ++ toString n
  else if n < 100 then "00" ++ toString n
  else if n < 1000 then "0" ++ toString n
  else toString n

/-- strftime with the format %Y%m%d_%H%M%S, main.py line 179. -/
def strftime_YmdHMS (t : DateTime) : String :=
  pad4 t.year ++ pad2 t.month ++ pad2 t.day ++ "_" ++
    pad2 t.hour ++ pad2 t.minute ++ pad2 t.second

/-- datetime.isoformat at second precision, main.py line 133. -/
def isoformat (t : DateTime) : String :=
  pad4 t.year ++ "-" ++ pad2 t.month ++ "-" ++ pad2 t.day ++ "T" ++
    pad2 t.hour ++ ":" ++ pad2 t.minute ++ ":" ++ pad2 t.second

/-- Python truthiness of an optional string: None and the empty string
are falsy; the test at main.py line 178 is its negation. -/
def py_falsy : Option String → Bool
  | none => true
  | some s => s.isEmpty

/-- The trace of one backup_deployment call: the returned dictionary
plus the cp invocation it spawned, if any, as a source and destination
pair. -/
structure BackupRun where
  result : PyDict
  copied : Option (String × String)
  deriving DecidableEq

/-- backup_deployment, main.py lines 162-196: when backupEnabled
defaults or reads as false the function returns at line 174 without
spawning anything; otherwise the destination is the supplied path, or
the derived timestamped path when the supplied path is falsy, and cp is
spawned; a copy failure is caught at line 194 and its message
returned. -/
def backup_deployment (cfg : Config) (backup_path : Option String)
    (now : DateTime) (copy : String → String → Except String Unit) :
    BackupRun :=
  if (cfg.backupEnabled.getD true) = false then
    { result := [("success", PyVal.bool false), ("reason", PyVal.str "Backup disabled")],
      copied := none }
  else
    let deployment_path := cfg.deploymentPath.getD "/var/www/html"
    let dst :=
      if py_falsy backup_path then
        deployment_path ++ "_backup_" ++ strftime_YmdHMS now
      else
        backup_path.getD ""
    match copy deployment_path dst with
    | Except.ok _ =>
        { result := [("success", PyVal.bool true), ("backup_path", PyVal.str dst)],
          copied := some (deployment_path, dst) }
    | Except.error msg =>
        { result := [("success", PyVal.bool false), ("error", PyVal.str msg)],
          copied := some (deployment_path, dst) }

/-- The snapshot dictionary built by get_status, main.py lines
124-136, with its four entries. -/
structure Status where
  environment : Option String
  timestamp : String
  config : Config
  services : List String
  deriving DecidableEq

/-- get_status, main.py lines 124-136: a pure read of the configuration
and the clock; the config entry is the loaded configuration itself and
the services entry is its configured service list. -/
def get_status (cfg : Config) (now : DateTime) : Status :=
  { environment := cfg.environment,
    timestamp := isoformat now,
    config := cfg,
    services := cfg.services.getD [] }

/-- Everything external that one program run observes: the config file
state, which script files exist, the outcome of each child process, and
the clock. -/
structure World where
  configFile : ConfigFile
  scriptExists : String → Bool
  runScript : String → RunOutcome
  restartOutcome : String → Except PyExc Unit
  copy : String → String → Except String Unit
  now : DateTime

/-- What main prints to standard output. -/
inductive Printed where
  | usage : Printed
  | statusJson : Status → Printed
  | unknownCommand : String → Printed
  deriving DecidableEq

/-- The observable outcome of one program run: the process exit status
and what was printed to standard output. -/
structure MainRun where
  exitCode : Nat
  printed : List Printed
  deriving DecidableEq

/-- Reads the success entry of a result dictionary, as the tests at
main.py lines 225 and 238 do. Every dictionary built by
execute_deployment and backup_deployment stores a boolean under
success, so the fallback branch is unreachable for them. -/
def result_success (r : PyDict) : Bool :=
  match r.lookup "success" with
  | some (PyVal.bool b) => b
  | _ => false

/-- main, main.py lines 199-243. argv is the full sys.argv, with the
program name at index zero. With fewer than two entries the usage text
is printed and the process exits normally; deploy and backup exit with
status 1 exactly when their result has success false; status prints the
snapshot; restart exits normally unless an exception escaped the loop
(which never happens, every exception being caught); an unknown command
prints an error and exits with status 1. -/
def main (argv : List String) (w : World) : MainRun :=
  let cfg := load_config w.configFile
  if argv.length < 2 then
    { exitCode := 0, printed := [Printed.usage] }
  else
    let command := argv.getD 1 ""
    if command = "deploy" then
      let script_name := if argv.length > 2 then argv.getD 2 "deploy" else "deploy"
      let result := execute_deployment script_name (w.scriptExists script_name)
        (w.runScript script_name)
      if result_success result = false then
        { exitCode := 1, printed := [] }
      else
        { exitCode := 0, printed := [] }
    else if command = "status" then
      { exitCode := 0, printed := [Printed.statusJson (get_status cfg w.now)] }
    else if command = "restart" then
      match (restart_services cfg w.restartOutcome).uncaught with
      | none => { exitCode := 0, printed := [] }
      | some _ => { exitCode := 1, printed := [] }
    else if command = "backup" then
      let backup_path := if argv.length > 2 then some (argv.getD 2 "") else none
      let result := backup_deployment cfg backup_path w.now w.copy
      if result_success result.result = false then
        { exitCode := 1, printed := [] }
      else
        { exitCode := 0, printed := [] }
    else
      { exitCode := 1, printed := [Printed.unknownCommand command] }

/-- A fixed sample time used by the concrete witnesses. -/
def dt0 : DateTime :=
  { year := 2026, month := 1, day := 2, hour := 3, minute := 4, second := 5 }

/-- The default configuration with backups switched off, used by the
concrete witnesses. -/
def cfg_backup_off : Config :=
  { get_default_config with backupEnabled := some false }

/-- A fixed sample world used by the concrete witnesses: no script file
exists, every child process would succeed, the config file is
missing. -/
def w0 : World :=
  { configFile := ConfigFile.missing,
    scriptExists := fun _ => false,
    runScript := fun _ => RunOutcome.completed 0 "" "",
    restartOutcome := fun _ => Except.ok (),
    copy := fun _ _ => Except.ok (),
    now := dt0 }

/-- Every exception a restart attempt can raise is caught by one of the
two except clauses of restart_services. -/
theorem caught_by_restart_handlers_total (e : PyExc) :
    caught_by_restart_handlers e = true := by
  cases e <;> rfl

/-- The restart loop visits every service in order and no exception
escapes it, whatever each attempt does. -/
theorem restart_loop_runs_all (outcome : String → Except PyExc Unit)
    (l : List String) : restart_loop outcome l = (l, none) := by
  induction l with
  | nil => rfl
  | cons s rest ih =>
      cases h : outcome s with
      | ok u => simp [restart_loop, h, ih]
      | error e => simp [restart_loop, h, ih, caught_by_restart_handlers_total e]

/-- The full trace of restart_services: every configured service is
attempted in order, nothing escapes, and nothing is returned. -/
theorem restart_services_trace (cfg : Config)
    (outcome : String → Except PyExc Unit) :
    restart_services cfg outcome =
      { attempted := cfg.services.getD [], uncaught := none, returned := none } := by
  unfold restart_services
  cases h : (cfg.services.getD []).isEmpty with
  | true => simp [List.isEmpty_iff.mp h]
  | false => simp [restart_loop_runs_all]

/-- C1: deploy on an existing script classifies the child process
outcome: exit status zero yields success true carrying the captured
standard output; a non-zero exit status n yields success false carrying
the captured standard error and exit code n; any other launch failure
yields success false with the failure message. -/
theorem C1_deploy_classifies_outcome
    (script_name stdout stderr msg : String) (n : Int) (hn : n ≠ 0) :
    (execute_deployment script_name true (RunOutcome.completed 0 stdout stderr)).lookup "success"
        = some (PyVal.bool true) ∧
    (execute_deployment script_name true (RunOutcome.completed 0 stdout stderr)).lookup "output"
        = some (PyVal.str stdout) ∧
    (execute_deployment script_name true (RunOutcome.completed n stdout stderr)).lookup "success"
        = some (PyVal.bool false) ∧
    (execute_deployment script_name true (RunOutcome.completed n stdout stderr)).lookup "error"
        = some (PyVal.str stderr) ∧
    (execute_deployment script_name true (RunOutcome.completed n stdout stderr)).lookup "exit_code"
        = some (PyVal.int n) ∧
    (execute_deployment script_name true (RunOutcome.raised msg)).lookup "success"
        = some (PyVal.bool false) ∧
    (execute_deployment script_name true (RunOutcome.raised msg)).lookup "error"
        = some (PyVal.str msg) := by
  simp [execute_deployment, List.lookup, hn]

/-- Concrete instance of C1: a script exiting 0 with output out, and a
script exiting 2 with an error on standard error. -/
theorem C1_deploy_classifies_outcome_witness :
    (execute_deployment "deploy" true (RunOutcome.completed 0 "out" "err")).lookup "output"
        = some (PyVal.str "out") ∧
    (execute_deployment "deploy" true (RunOutcome.completed 2 "out" "err")).lookup "exit_code"
        = some (PyVal.int 2) :=
  ⟨(C1_deploy_classifies_outcome "deploy" "out" "err" "m" 2 (by decide)).2.1,
   (C1_deploy_classifies_outcome "deploy" "out" "err" "m" 2 (by decide)).2.2.2.2.1⟩

/-- C2: restart attempts every configured service in order even when an
earlier restart fails: every per-service exception is caught, so no
failure prevents the attempts for the remaining services. -/
theorem C2_restart_attempts_all_services (cfg : Config)
    (outcome : String → Except PyExc Unit) :
    (restart_services cfg outcome).attempted = cfg.services.getD [] ∧
    (restart_services cfg outcome).uncaught = none := by
  rw [restart_services_trace]
  exact ⟨rfl, rfl⟩

/-- C3: with backupEnabled set to false, backup spawns no copy process
and returns exactly the dictionary with success false and reason Backup
disabled, for every supplied or absent destination path. -/
theorem C3_backup_disabled (cfg : Config)
    (h : cfg.backupEnabled = some false) (backup_path : Option String)
    (now : DateTime) (copy : String → String → Except String Unit) :
    backup_deployment cfg backup_path now copy =
      { result := [("success", PyVal.bool false), ("reason", PyVal.str "Backup disabled")],
        copied := none } := by
  simp [backup_deployment, h]

/-- Concrete instance of C3: backups disabled, an explicit path
supplied, and a copy that would succeed; still no process is spawned
and the result is the Backup disabled dictionary. -/
theorem C3_backup_disabled_witness :
    backup_deployment cfg_backup_off (some "/tmp/dest") dt0 (fun _ _ => Except.ok ()) =
      { result := [("success", PyVal.bool false), ("reason", PyVal.str "Backup disabled")],
        copied := none } :=
  C3_backup_disabled cfg_backup_off rfl (some "/tmp/dest") dt0 (fun _ _ => Except.ok ())

/-- C5: a missing configuration file, and a configuration file whose
read or parse raises, both load to exactly the documented defaults. -/
theorem C5_defaults_on_load_failure (f : ConfigFile)
    (h : f = ConfigFile.missing ∨ ∃ m, f = ConfigFile.unreadable m) :
    load_config f =
      { environment := some "development", logLevel := some "INFO",
        deploymentPath := some "/var/www/html", backupEnabled := some true,
        services := some [] } := by
  rcases h with h | ⟨m, h⟩ <;> subst h <;> rfl

/-- Concrete instance of C5: the missing config file loads to the
documented defaults. -/
theorem C5_defaults_on_load_failure_witness :
    load_config ConfigFile.missing =
      { environment := some "development", logLevel := some "INFO",
        deploymentPath := some "/var/www/html", backupEnabled := some true,
        services := some [] } :=
  C5_defaults_on_load_failure ConfigFile.missing (Or.inl rfl)

/-- C4: deploy on a script name whose resolved file does not exist
returns a result with success false, and the process then exits with
status 1. -/
theorem C4_deploy_missing_script (w : World) (prog script_name : String)
    (h : w.scriptExists script_name = false) :
    result_success (execute_deployment script_name (w.scriptExists script_name)
        (w.runScript script_name)) = false ∧
    (main [prog, "deploy", script_name] w).exitCode = 1 := by
  constructor
  · rw [h]
    cases w.runScript script_name <;>
      simp [execute_deployment, result_success, List.lookup]
  · simp only [main, List.length_cons, List.getD, List.get?]
    norm_num
    rw [h]
    cases w.runScript script_name <;>
      simp [execute_deployment, result_success, List.lookup]

/-- Concrete instance of C4: in a world with no script files, deploy of
the script named missing fails and the process exits with status 1. -/
theorem C4_deploy_missing_script_witness :
    result_success (execute_deployment "missing" (w0.scriptExists "missing")
        (w0.runScript "missing")) = false ∧
    (main ["main.py", "deploy", "missing"] w0).exitCode = 1 :=
  C4_deploy_missing_script w0 "main.py" "missing" rfl

/-- C6: with backups enabled and no caller-supplied path, the copy
destination is exactly the configured deploymentPath followed by
_backup_ followed by the current time in the %Y%m%d_%H%M%S format. -/
theorem C6_backup_derived_destination (cfg : Config) (p : String)
    (henabled : cfg.backupEnabled.getD true = true)
    (hpath : cfg.deploymentPath = some p)
    (now : DateTime) (copy : String → String → Except String Unit) :
    (backup_deployment cfg none now copy).copied =
      some (p, p ++ "_backup_" ++ strftime_YmdHMS now) := by
  cases h : copy p (p ++ "_backup_" ++ strftime_YmdHMS now) <;>
    simp [backup_deployment, henabled, hpath, py_falsy, h]

/-- Concrete instance of C6: default configuration, fixed clock; the
destination is the deployment path with the timestamp suffix. -/
theorem C6_backup_derived_destination_witness :
    (backup_deployment get_default_config none dt0 (fun _ _ => Except.ok ())).copied =
      some ("/var/www/html", "/var/www/html" ++ "_backup_" ++ strftime_YmdHMS dt0) :=
  C6_backup_derived_destination get_default_config "/var/www/html" rfl rfl dt0
    (fun _ _ => Except.ok ())

/-- C7 fails as stated: restart is one of the four actions, yet it
produces no result record at all — its Python return value is None on
every path, here at a concrete configuration and outcome. -/
theorem C7_counterexample_restart_returns_nothing :
    (restart_services get_default_config (fun _ => Except.ok ())).returned = none := rfl

/-- C7 amended: every result record deploy and backup produce is
unambiguous: whenever its success entry is true, the error and
exit_code entries are absent; restart, however, produces no result
record. -/
theorem C7_produced_results_unambiguous (script_name : String) (ex : Bool)
    (run : RunOutcome) (cfg : Config) (path : Option String) (now : DateTime)
    (copy : String → String → Except String Unit) :
    ((execute_deployment script_name ex run).lookup "success" = some (PyVal.bool true) →
      (execute_deployment script_name ex run).lookup "error" = none ∧
      (execute_deployment script_name ex run).lookup "exit_code" = none) ∧
    ((backup_deployment cfg path now copy).result.lookup "success" = some (PyVal.bool true) →
      (backup_deployment cfg path now copy).result.lookup "error" = none ∧
      (backup_deployment cfg path now copy).result.lookup "exit_code" = none) := by
  constructor
  · cases hex : ex with
    | false => simp [execute_deployment, List.lookup]
    | true =>
        cases run with
        | completed code stdout stderr =>
            by_cases hc : code = 0 <;>
              simp [execute_deployment, List.lookup, hc]
        | raised msg => simp [execute_deployment, List.lookup]
  · unfold backup_deployment
    by_cases hb : cfg.backupEnabled.getD true = false
    · simp [hb, List.lookup]
    · simp only [hb, if_neg, if_false]
      cases h : copy (cfg.deploymentPath.getD "/var/www/html")
          (if py_falsy path then
            cfg.deploymentPath.getD "/var/www/html" ++ "_backup_" ++ strftime_YmdHMS now
          else path.getD "") <;>
        simp [h, List.lookup]

/-- Concrete instance of the amended C7: a successful deploy result has
no error and no exit_code entry. -/
theorem C7_produced_results_unambiguous_witness :
    (execute_deployment "deploy" true (RunOutcome.completed 0 "out" "err")).lookup "error"
        = none ∧
    (execute_deployment "deploy" true (RunOutcome.completed 0 "out" "err")).lookup "exit_code"
        = none :=
  (C7_produced_results_unambiguous "deploy" true (RunOutcome.completed 0 "out" "err")
      get_default_config none dt0 (fun _ _ => Except.ok ())).1 (by decide)

/-- C8: status always succeeds and returns the snapshot with the
environment, timestamp, config and services entries, the config entry
being the loaded configuration unchanged and the services entry its
configured service list; in the embedding it is a pure function of the
configuration and the clock, so it mutates no state and spawns no
process. -/
theorem C8_status_snapshot (cfg : Config) (now : DateTime) :
    (get_status cfg now).environment = cfg.environment ∧
    (get_status cfg now).timestamp = isoformat now ∧
    (get_status cfg now).config = cfg ∧
    (get_status cfg now).services = cfg.services.getD [] :=
  ⟨rfl, rfl, rfl, rfl⟩

/-- C10: with backups enabled, a caller-supplied empty string is
treated exactly as an absent path: the whole run is identical to the
one with no path, and the destination is the derived timestamped
path. -/
theorem C10_empty_path_treated_as_absent (cfg : Config)
    (henabled : cfg.backupEnabled.getD true = true) (now : DateTime)
    (copy : String → String → Except String Unit) :
    backup_deployment cfg (some "") now copy = backup_deployment cfg none now copy ∧
    (backup_deployment cfg (some "") now copy).copied =
      some (cfg.deploymentPath.getD "/var/www/html",
        cfg.deploymentPath.getD "/var/www/html" ++ "_backup_" ++ strftime_YmdHMS now) := by
  have hsame : backup_deployment cfg (some "") now copy =
      backup_deployment cfg none now copy := by
    unfold backup_deployment
    rfl
  refine ⟨hsame, ?_⟩
  rw [hsame]
  cases h : copy (cfg.deploymentPath.getD "/var/www/html")
      (cfg.deploymentPath.getD "/var/www/html" ++ "_backup_" ++ strftime_YmdHMS now) <;>
    simp [backup_deployment, henabled, py_falsy, h]

/-- Concrete instance of C10: default configuration with an empty
string path; the destination is the derived timestamped path. -/
theorem C10_empty_path_treated_as_absent_witness :
    (backup_deployment get_default_config (some "") dt0 (fun _ _ => Except.ok ())).copied =
      some (get_default_config.deploymentPath.getD "/var/www/html",
        get_default_config.deploymentPath.getD "/var/www/html" ++ "_backup_"
          ++ strftime_YmdHMS dt0) :=
  (C10_empty_path_treated_as_absent get_default_config rfl dt0
    (fun _ _ => Except.ok ())).2

/-- C9: the CLI exits with status 0 for status and restart in every
case, including restart failures; deploy and backup exit with status 1
exactly when the result has success false and with 0 otherwise; an
unknown subcommand prints an error and exits with status 1; an
invocation with no arguments prints the usage text and exits with
status 0. -/
theorem C9_cli_exit_codes (argv : List String) (w : World) :
    (argv.length < 2 →
      (main argv w).exitCode = 0 ∧ (main argv w).printed = [Printed.usage]) ∧
    (2 ≤ argv.length → argv.getD 1 "" = "status" → (main argv w).exitCode = 0) ∧
    (2 ≤ argv.length → argv.getD 1 "" = "restart" → (main argv w).exitCode = 0) ∧
    (2 ≤ argv.length → argv.getD 1 "" = "deploy" →
      ((main argv w).exitCode = 1 ↔
        result_success (execute_deployment
          (if argv.length > 2 then argv.getD 2 "deploy" else "deploy")
          (w.scriptExists (if argv.length > 2 then argv.getD 2 "deploy" else "deploy"))
          (w.runScript (if argv.length > 2 then argv.getD 2 "deploy" else "deploy")))
          = false) ∧
      ((main argv w).exitCode = 1 ∨ (main argv w).exitCode = 0)) ∧
    (2 ≤ argv.length → argv.getD 1 "" = "backup" →
      ((main argv w).exitCode = 1 ↔
        result_success (backup_deployment (load_config w.configFile)
          (if argv.length > 2 then some (argv.getD 2 "") else none)
          w.now w.copy).result = false) ∧
      ((main argv w).exitCode = 1 ∨ (main argv w).exitCode = 0)) ∧
    (2 ≤ argv.length →
      argv.getD 1 "" ∉ (["deploy", "status", "restart", "backup"] : List String) →
      (main argv w).exitCode = 1 ∧
      (main argv w).printed = [Printed.unknownCommand (argv.getD 1 "")]) := by
  refine ⟨?_, ?_, ?_, ?_, ?_, ?_⟩
  · intro h
    simp [main, h]
  · intro hlen hcmd
    have h2 : ¬ argv.length < 2 := by omega
    simp only [main, if_neg h2, hcmd]
    simp
  · intro hlen hcmd
    have h2 : ¬ argv.length < 2 := by omega
    simp only [main, if_neg h2, hcmd, restart_services_trace]
    simp
  · intro hlen hcmd
    have h2 : ¬ argv.length < 2 := by omega
    simp only [main, if_neg h2, hcmd, if_pos rfl]
    cases hr : result_success (execute_deployment
        (if argv.length > 2 then argv.getD 2 "deploy" else "deploy")
        (w.scriptExists (if argv.length > 2 then argv.getD 2 "deploy" else "deploy"))
        (w.runScript (if argv.length > 2 then argv.getD 2 "deploy" else "deploy"))) <;>
      simp [hr]
  · intro hlen hcmd
    have h2 : ¬ argv.length < 2 := by omega
    simp only [main, if_neg h2, hcmd]
    cases hr : result_success (backup_deployment (load_config w.configFile)
        (if argv.length > 2 then some (argv.getD 2 "") else none)
        w.now w.copy).result <;>
      simp [hr]
  · intro hlen hcmd
    have h2 : ¬ argv.length < 2 := by omega
    simp only [List.mem_cons, List.mem_singleton, not_or] at hcmd
    obtain ⟨hd, hs, hr, hb, -⟩ := hcmd
    simp only [main, if_neg h2, if_neg hd, if_neg hs, if_neg hr, if_neg hb]
    simp

/-- Concrete instance of C9: with no arguments beyond the program name
the usage text is printed and the exit status is 0; the status command
exits 0; an unknown command prints an error and exits 1. -/
theorem C9_cli_exit_codes_witness :
    ((main ["main.py"] w0).exitCode = 0 ∧
      (main ["main.py"] w0).printed = [Printed.usage]) ∧
    (main ["main.py", "status"] w0).exitCode = 0 ∧
    ((main ["main.py", "bogus"] w0).exitCode = 1 ∧
      (main ["main.py", "bogus"] w0).printed = [Printed.unknownCommand "bogus"]) :=
  ⟨(C9_cli_exit_codes ["main.py"] w0).1 (by decide),
   (C9_cli_exit_codes ["main.py", "status"] w0).2.1 (by decide) (by decide),
   (C9_cli_exit_codes ["main.py", "bogus"] w0).2.2.2.2.2 (by decide) (by decide)⟩

end DeployKit
